import Mathlib

/-!
Shallow embedding of `src/main.py` (serial/HTTP PID gateway).

Numeric values carried by the Python program as `float` are modelled as
rationals (`ℚ`); `int` as `ℤ`. Strings are modelled as `String` / `List Char`.
Effectful operations (serial reads and writes, HTTP requests, CSV file I/O,
wall-clock time) are modelled by passing the behaviour of the environment in
explicitly (oracle arguments) and returning the externally visible effects
(written frames, file contents) as data. Python exceptions are modelled with
`Except` where they can escape, and with `Option`/branching where the source
catches them locally.
-/

namespace PidGateway

/-! ### Calibration constants (src/main.py lines 12-36) -/

def TANK_HEIGHT : ℚ := 15
def SENSOR_OFFSET : ℚ := 13/10
def MIN_WATER_HEIGHT : ℚ := 5/2
def MAX_WATER_HEIGHT : ℚ := 10
def SENSOR_TO_BOTTOM : ℚ := TANK_HEIGHT - SENSOR_OFFSET
def SENSOR_TO_EMPTY : ℚ := SENSOR_TO_BOTTOM - MIN_WATER_HEIGHT
def SENSOR_TO_FULL : ℚ := SENSOR_TO_BOTTOM - MAX_WATER_HEIGHT

/-! ### String primitives modelling the Python built-ins used by the source -/

/-- Model of Python `str.strip()`: drop leading and trailing whitespace. -/
def stripL (cs : List Char) : List Char :=
  (((cs.dropWhile Char.isWhitespace).reverse).dropWhile Char.isWhitespace).reverse

/-- Split a character list at a leading run of ASCII digits. -/
def takeDigits : List Char → List Char × List Char
  | [] => ([], [])
  | c :: rest =>
    if c.isDigit then
      let (d, r) := takeDigits rest
      (c :: d, r)
    else ([], c :: rest)

/-- Numeric value of a digit string (most significant digit first). -/
def digsVal (ds : List Char) : ℕ :=
  ds.foldl (fun a c => a * 10 + (c.toNat - 48)) 0

/-- Model of Python `float(s)` on an already-stripped string, for plain decimal
literals `[sign] digits [ . digits ]` (the only float syntax the device
protocol produces; exponent/`inf`/`nan` forms are out of scope and the
malformed strings the claims use are rejected exactly as `float` rejects
them). Returns `none` where `float` raises `ValueError`. The decimal value
`ds + fs / 10 ^ |fs|` is built with `mkRat` so that it computes. -/
def pyFloatCore (cs : List Char) : Option ℚ :=
  let (ds, rest) := takeDigits cs
  match rest with
  | [] => if ds.isEmpty then none else some (mkRat (digsVal ds) 1)
  | '.' :: rest2 =>
    let (fs, rest3) := takeDigits rest2
    if rest3.isEmpty && !(ds.isEmpty && fs.isEmpty) then
      some (mkRat (digsVal ds * 10 ^ fs.length + digsVal fs) (10 ^ fs.length))
    else none
  | _ => none

/-- Model of Python `float(s)`: strips whitespace, handles an optional sign,
then parses a decimal literal. -/
def pyFloat (cs : List Char) : Option ℚ :=
  match stripL cs with
  | '-' :: rest => (pyFloatCore rest).map (fun q => -q)
  | '+' :: rest => pyFloatCore rest
  | other => pyFloatCore other

/-- Model of Python `int(s)` on digits-only bodies: strips whitespace, optional
sign, then requires the remainder to be a nonempty digit run (so `int("5.2")`
fails, as in Python). Returns `none` where `int` raises `ValueError`. -/
def pyIntCore (cs : List Char) : Option ℤ :=
  let (ds, rest) := takeDigits cs
  if rest.isEmpty && !ds.isEmpty then some (digsVal ds : ℤ) else none

/-- Model of Python `int(s)` (sign and whitespace handling). -/
def pyInt (cs : List Char) : Option ℤ :=
  match stripL cs with
  | '-' :: rest => (pyIntCore rest).map (fun z => -z)
  | '+' :: rest => pyIntCore rest
  | other => pyIntCore other

/-- `startsWithL pat s` : does `s` start with `pat`? -/
def startsWithL : List Char → List Char → Bool
  | [], _ => true
  | _ :: _, [] => false
  | a :: as, b :: bs => a == b && startsWithL as bs

/-- Model of Python `pat in s` (substring containment). -/
def hasSubL (pat : List Char) : List Char → Bool
  | [] => pat.isEmpty
  | c :: rest => startsWithL pat (c :: rest) || hasSubL pat rest

/-- Model of Python `s.split(',')`: split at every comma, keeping empty
fields. -/
def splitComma : List Char → List (List Char)
  | [] => [[]]
  | c :: rest =>
    match splitComma rest with
    | [] => [[]]
    | h :: t => if c = ',' then [] :: h :: t else (c :: h) :: t

/-! ### Retained telemetry state (globals `last_upper`, `last_lower`,
`last_pump`, src/main.py lines 23-25) -/

structure Telemetry where
  last_upper : ℚ
  last_lower : ℚ
  last_pump : ℤ
deriving DecidableEq

/-- src/main.py lines 154-159: the body of the `try` updating the retained
globals. Python executes the three assignments in order and a `ValueError`
aborts at the failing conversion, so an assignment that already happened
stays: `float(parts[0])` is evaluated and bound to `last_upper` before
`float(parts[1])` runs. -/
def processParts (p0 p1 p2 : List Char) (st : Telemetry) : Telemetry :=
  match pyFloat p0 with
  | none => st
  | some u =>
    let st1 := { st with last_upper := u }
    match pyFloat p1 with
    | none => st1
    | some l =>
      let st2 := { st1 with last_lower := l }
      match pyInt p2 with
      | none => st2
      | some p => { st2 with last_pump := p }

/-- src/main.py lines 146-159: process one decoded, stripped serial line.
`"INTERLOCK" in line` uses substring containment; otherwise a nonempty line
containing a comma is split and, when it has exactly three fields, the
retained telemetry is updated field by field. -/
def processLine (cs : List Char) (st : Telemetry) : Telemetry :=
  if hasSubL ("INTERLOCK".toList) cs then st
  else if !cs.isEmpty && cs.contains ',' then
    match splitComma cs with
    | [p0, p1, p2] => processParts p0 p1 p2 st
    | _ => st
  else st

/-- One raw line as handed to `readline().decode().strip()`. -/
def decodeLine (raw : String) (st : Telemetry) : Telemetry :=
  processLine (stripL raw.toList) st

/-! ### UnitConverter -/

/-- src/main.py lines 68-70: clamp the reading into
`[SENSOR_TO_FULL, SENSOR_TO_EMPTY]` via `max(min(..), ..)`, then map
linearly. -/
def sensor_to_percent (sensor_reading : ℚ) : ℚ :=
  let reading := max (min sensor_reading SENSOR_TO_EMPTY) SENSOR_TO_FULL
  ((SENSOR_TO_EMPTY - reading) / (SENSOR_TO_EMPTY - SENSOR_TO_FULL)) * 100

/-- src/main.py line 169 (inline in the post branch):
`((last_pump - 16.0) / (50.0 - 16.0)) * 100.0 if last_pump > 0 else 0`. -/
def pumpToPercent (raw : ℤ) : ℚ :=
  if raw > 0 then (((raw : ℚ) - 16) / (50 - 16)) * 100 else 0

/-! ### Float formatting (Python `str(x)` and `f"{x:.1f}"`) -/

/-- Left-pad a digit string with `'0'` to length `k`. -/
def padZeros (s : List Char) (k : ℕ) : List Char :=
  List.replicate (k - s.length) '0' ++ s

/-- Smallest exponent `k ≤ 17` with `d ∣ 10 ^ k`, if any. -/
def pow10Exp (d : ℕ) : Option ℕ :=
  (List.range 18).find? (fun k => 10 ^ k % d == 0)

/-- Model of Python `str(x)` / f-string interpolation of a float whose value
is a decimal rational: the shortest decimal digit string, always with at
least one fractional digit (`str(90.0) = "90.0"`, `str(5.2) = "5.2"`).
Shortest-repr subtleties of binary floats do not arise for the one-decimal
values the claims exercise. -/
def pyFloatStr (q : ℚ) : String :=
  let sign := if q.num < 0 then "-" else ""
  let n := q.num.natAbs
  match pow10Exp q.den with
  | some 0 => sign ++ Nat.repr n ++ ".0"
  | some (k + 1) =>
    let scaled := n * (10 ^ (k + 1) / q.den)
    sign ++ Nat.repr (scaled / 10 ^ (k + 1)) ++ "." ++
      String.mk (padZeros (Nat.repr (scaled % 10 ^ (k + 1))).toList (k + 1))
  | none => sign ++ Nat.repr n ++ "/" ++ Nat.repr q.den

/-- src/main.py line 76: the single command frame written by
`send_setpoint_to_arduino`: `f"SP:{setpoint}\n"`. -/
def spFrame (setpoint : ℚ) : String := "SP:" ++ pyFloatStr setpoint ++ "\n"

/-- `q * 10` rounded to the nearest integer, half up, written with integer
arithmetic on `num`/`den` so it computes:
`⌊10q + 1/2⌋ = (20 num + den).fdiv (2 den)`. -/
def roundTenths (q : ℚ) : ℤ :=
  (20 * q.num + (q.den : ℤ)).fdiv (2 * (q.den : ℤ))

/-- Model of Python `f"{x:.1f}"`: fixed-point, one fractional digit.
CPython rounds the underlying binary float half to even; this model rounds
half up — the behaviours only differ at exact ties in the tenths digit,
which no claim exercises. -/
def format1f (q : ℚ) : String :=
  let n := roundTenths q
  let sign := if n < 0 then "-" else ""
  let m := n.natAbs
  sign ++ Nat.repr (m / 10) ++ "." ++ Nat.repr (m % 10)

/-! ### AuditLog (src/main.py lines 102-125) -/

/-- One row of `pid_data.csv`: the header that `writer.writeheader()` emits,
or one `writer.writerow(...)` record. -/
inductive CsvRow where
  | header : CsvRow
  | data : String → String → String → String → CsvRow
deriving DecidableEq

/-- The cells of a row in file order
(`fieldnames` is `timestamp, PV, CO, setpoint`). -/
def rowFields : CsvRow → List String
  | .header => ["timestamp", "PV", "CO", "setpoint"]
  | .data ts pv co sp => [ts, pv, co, sp]

/-- The record written by src/main.py lines 117-122: timestamp plus the
three values formatted with `:.1f`. -/
def mkDataRow (ts : String) (upper_percent pump_percent current_setpoint : ℚ) : CsvRow :=
  CsvRow.data ts (format1f upper_percent) (format1f pump_percent) (format1f current_setpoint)

/-- src/main.py lines 102-122, `log_pid_data_to_csv`. The CSV file is
modelled as `Option (List CsvRow)`: `none` when `os.path.isfile` is false.
The function opens the file with `open` in append mode inside a `with`
block (handle closed before returning), writes the header iff the file did
not exist, then exactly one data row; the result is the file content
afterwards. -/
def log_pid_data_to_csv (upper_percent pump_percent current_setpoint : ℚ)
    (ts : String) (file : Option (List CsvRow)) : List CsvRow :=
  let row := mkDataRow ts upper_percent pump_percent current_setpoint
  match file with
  | none => [CsvRow.header, row]
  | some rows => rows ++ [row]

/-- Iterated push-tick logging: the file (initially `f`) after a sequence of
`log_pid_data_to_csv` calls, one per sample `(ts, upper, pump, setpoint)`.
After the first call the file exists, so later calls see `some _`. -/
def runLog : Option (List CsvRow) → List (String × ℚ × ℚ × ℚ) → Option (List CsvRow)
  | f, [] => f
  | f, s :: rest =>
    runLog (some (log_pid_data_to_csv s.2.1 s.2.2.1 s.2.2.2 s.1 f)) rest

/-- src/main.py lines 166-177, the push branch of the loop: compute the three
percentages from the retained telemetry, log one CSV record (upper as PV,
pump as CO, plus the setpoint), and post. Returns the percentages that feed
`post(upper_percent, lower_percent, pump_percent)` and the file content
after the tick. -/
def postTick (st : Telemetry) (current_setpoint : ℚ) (ts : String)
    (file : Option (List CsvRow)) : (ℚ × ℚ × ℚ) × List CsvRow :=
  let upper_percent := sensor_to_percent st.last_upper
  let lower_percent := sensor_to_percent st.last_lower
  let pump_percent := pumpToPercent st.last_pump
  ((upper_percent, lower_percent, pump_percent),
    log_pid_data_to_csv upper_percent pump_percent current_setpoint ts file)

/-! ### RemoteSync pull (src/main.py lines 50-66) and the pull branch
(lines 180-186) -/

/-- The `setpoint` entry of the decoded JSON body: absent
(`"setpoint" in data` false), present but such that `float(...)` raises, or
present with numeric value `q`. -/
inductive SPField where
  | absent : SPField
  | nonNumeric : SPField
  | val : ℚ → SPField

/-- Body of an HTTP response: `res.json()` raises, or yields a dict whose
`setpoint` entry is described by `SPField`. -/
inductive RespBody where
  | badJson : RespBody
  | fields : SPField → RespBody

/-- Outcome of `requests.get(url_get, timeout=2.0)`: an exception
(connection error / timeout), or a response with a status code and body. -/
inductive GetOutcome where
  | netErr : GetOutcome
  | resp : ℕ → RespBody → GetOutcome

/-- src/main.py lines 50-66, `get()`: returns `(changed, new current_setpoint)`.
Only a 200 response whose body has a numeric `setpoint` differing from the
held value updates the global and returns `True`; every exception is caught
by `except Exception` and falls through to `return False`. -/
def getStep : GetOutcome → ℚ → Bool × ℚ
  | .netErr, sp => (false, sp)
  | .resp status body, sp =>
    if status = 200 then
      match body with
      | .badJson => (false, sp)
      | .fields .absent => (false, sp)
      | .fields .nonNumeric => (false, sp)
      | .fields (.val q) => if q ≠ sp then (true, q) else (false, sp)
    else (false, sp)

/-- src/main.py lines 180-186, the pull branch: `if get() and ser:` send the
(updated) setpoint; a `SerialException` from the send is caught and sets
`ser = None`. Returns (new setpoint, serial still connected, frames written
to the device this tick). On a failed send the frame is not delivered and
the connection is dropped. -/
def pullTick (o : GetOutcome) (sp : ℚ) (serConnected : Bool) (writeOk : Bool) :
    ℚ × Bool × List String :=
  let r := getStep o sp
  if r.1 && serConnected then
    if writeOk then (r.2, true, [spFrame r.2]) else (r.2, false, [])
  else (r.2, serConnected, [])

/-! ### Serial read branch (src/main.py lines 142-163) -/

/-- One event inside the drain loop: a line delivered by `readline()`
(already decoded), or a `SerialException` raised by `ser.in_waiting` /
`ser.readline()` inside the `try`. -/
inductive SerEvent where
  | line : String → SerEvent
  | err : SerEvent

/-- The inner `while ser.in_waiting:` drain (lines 145-159): process lines
until the buffer is empty (`true` = still connected) or a `SerialException`
is raised, which the handler at lines 160-163 catches, closing the handle
and setting `ser = None` (`false` = disconnected). -/
def drainLines : List SerEvent → Telemetry → Telemetry × Bool
  | [], st => (st, true)
  | .err :: _, st => (st, false)
  | .line s :: rest, st => drainLines rest (decodeLine s st)

/-- src/main.py lines 142-163, the serial branch of one loop iteration.
`checkPending` is the evaluation of `ser.in_waiting` in the guard on line
142: it happens before the `try` on line 144, so if it raises
(`.error ()`), the exception leaves the loop body — no handler but
`except KeyboardInterrupt` (line 194) exists on the way out, so the process
terminates; this is modelled by propagating `Except.error`. Otherwise the
guard also requires the read timer to have elapsed, and the drain runs
inside the `try`. Result: retained telemetry and whether a serial
connection is still held. -/
def serialStep (conn : Bool) (checkPending : Except Unit Bool) (timerOk : Bool)
    (events : List SerEvent) (st : Telemetry) : Except Unit (Telemetry × Bool) :=
  if conn then
    match checkPending with
    | .error e => .error e
    | .ok true => if timerOk then .ok (drainLines events st) else .ok (st, true)
    | .ok false => .ok (st, true)
  else .ok (st, false)

/-! ### SerialLink connect-with-retry (src/main.py lines 82-100) -/

/-- Outcome of one iteration of the `while True:` connect loop:
`serial.Serial(...)` (or the flushes) raises, the initial setpoint send
raises (`send_setpoint_to_arduino` re-raises `SerialException`), or
everything succeeds and the function returns the handle. -/
inductive ConnAttempt where
  | openFail : ConnAttempt
  | writeFail : ConnAttempt
  | ok : ConnAttempt
deriving DecidableEq

/-- src/main.py lines 82-100, `establish_serial_connection`. `oracle k` is
the outcome of attempt `k` (0-based); `sp` is the value of the global
`current_setpoint`, which cannot change during the call (single thread).
`fuel` bounds how far the unbounded `while True:` is unrolled: `none`
means the loop is still retrying after `fuel` attempts. On success the
result is `(number of attempts made, number of RETRY_DELAY sleeps taken,
frames written to the returned handle)`: each failed attempt sleeps once
at line 100, and the successful attempt writes exactly the initialization
frame `"SP:<setpoint>\n"` at line 95 before returning. -/
def establishLoop (oracle : ℕ → ConnAttempt) (sp : ℚ) :
    ℕ → ℕ → Option (ℕ × ℕ × List String)
  | 0, _ => none
  | fuel + 1, k =>
    match oracle k with
    | .ok => some (k + 1, k, [spFrame sp])
    | _ => establishLoop oracle sp fuel (k + 1)

/-- The call as made from the source: start at attempt 0. -/
def establish_serial_connection (oracle : ℕ → ConnAttempt) (sp : ℚ) (fuel : ℕ) :
    Option (ℕ × ℕ × List String) :=
  establishLoop oracle sp fuel 0

/-! ### Helper lemmas -/

lemma ste_eq : SENSOR_TO_EMPTY = 56/5 := by
  norm_num [SENSOR_TO_EMPTY, SENSOR_TO_BOTTOM, TANK_HEIGHT, SENSOR_OFFSET, MIN_WATER_HEIGHT]

lemma stf_eq : SENSOR_TO_FULL = 37/10 := by
  norm_num [SENSOR_TO_FULL, SENSOR_TO_BOTTOM, TANK_HEIGHT, SENSOR_OFFSET, MAX_WATER_HEIGHT]

lemma stf_le_ste : SENSOR_TO_FULL ≤ SENSOR_TO_EMPTY := by
  rw [ste_eq, stf_eq]; norm_num

lemma sensor_in_range (d : ℚ) (h1 : SENSOR_TO_FULL ≤ d) (h2 : d ≤ SENSOR_TO_EMPTY) :
    sensor_to_percent d = ((SENSOR_TO_EMPTY - d) / (SENSOR_TO_EMPTY - SENSOR_TO_FULL)) * 100 := by
  unfold sensor_to_percent
  rw [min_eq_left h2, max_eq_left h1]

lemma runLog_some (ss : List (String × ℚ × ℚ × ℚ)) :
    ∀ f : List CsvRow, runLog (some f) ss =
      some (f ++ ss.map (fun x => mkDataRow x.1 x.2.1 x.2.2.1 x.2.2.2)) := by
  induction ss with
  | nil => intro f; simp [runLog]
  | cons s rest ih =>
    intro f
    simp only [runLog, log_pid_data_to_csv, ih, List.map_cons]
    simp

lemma establishLoop_go (oracle : ℕ → ConnAttempt) (sp : ℚ) (N : ℕ) :
    ∀ fuel k, k ≤ N → N - k < fuel →
      (∀ i, k ≤ i → i < N → oracle i ≠ ConnAttempt.ok) → oracle N = ConnAttempt.ok →
      establishLoop oracle sp fuel k = some (N + 1, N, [spFrame sp]) := by
  intro fuel
  induction fuel with
  | zero => intro k _ hlt _ _; omega
  | succ fuel ih =>
    intro k hk hlt hfail hok
    rcases Nat.eq_or_lt_of_le hk with heq | hlt2
    · subst heq
      simp [establishLoop, hok]
    · have hne : oracle k ≠ ConnAttempt.ok := hfail k le_rfl hlt2
      have step : establishLoop oracle sp (fuel + 1) k = establishLoop oracle sp fuel (k + 1) := by
        cases h : oracle k with
        | openFail => simp [establishLoop, h]
        | writeFail => simp [establishLoop, h]
        | ok => exact absurd h hne
      rw [step]
      exact ih (k + 1) hlt2 (by omega) (fun i hi hiN => hfail i (by omega) hiN) hok

lemma establishLoop_frames (oracle : ℕ → ConnAttempt) (sp : ℚ) :
    ∀ fuel k a d w, establishLoop oracle sp fuel k = some (a, d, w) → w = [spFrame sp] := by
  intro fuel
  induction fuel with
  | zero => intro k a d w h; simp [establishLoop] at h
  | succ fuel ih =>
    intro k a d w h
    unfold establishLoop at h
    cases hk : oracle k with
    | openFail => rw [hk] at h; exact ih (k + 1) a d w h
    | writeFail => rw [hk] at h; exact ih (k + 1) a d w h
    | ok =>
      rw [hk] at h
      simp only [Option.some.injEq, Prod.mk.injEq] at h
      exact h.2.2.symm

/-! ### Claims -/

/-- C1 counterexample: the line `"5.2,abc,20"` has a field that fails to
parse (`float("abc")` raises), yields no reading, and yet the retained
telemetry is not left unchanged: `last_upper` has already been overwritten
with 5.2 when the `ValueError` aborts the update. -/
theorem decode_partial_update_cex :
    pyFloat ("abc".toList) = none ∧
    decodeLine "5.2,abc,20" ⟨0, 0, 0⟩ = ⟨mkRat 26 5, 0, 0⟩ ∧
    decodeLine "5.2,abc,20" ⟨0, 0, 0⟩ ≠ ⟨0, 0, 0⟩ := by
  refine ⟨by decide, by decide, by decide⟩

/-- C1 amended: a handshake line, an empty line, a line without a comma, or
a line whose comma-split does not have exactly three fields leaves the
retained telemetry unchanged; a three-field line updates it field by field,
left to right: if all three fields parse, all three retained values are
replaced together; if the first field fails to parse, nothing changes; if
the second (third) field fails, the first one (two) field(s) have already
been overwritten and the rest keep their old values — a malformed line is
dropped without completing the update, but not always without a partial
update. -/
theorem decode_fieldwise (st : Telemetry) :
    (∀ cs, hasSubL ("INTERLOCK".toList) cs = true → processLine cs st = st) ∧
    (∀ cs : List Char, cs.isEmpty = true → processLine cs st = st) ∧
    (∀ cs : List Char, cs.contains ',' = false → processLine cs st = st) ∧
    (∀ cs, (splitComma cs).length ≠ 3 → processLine cs st = st) ∧
    (∀ cs p0 p1 p2,
      hasSubL ("INTERLOCK".toList) cs = false →
      cs.isEmpty = false → cs.contains ',' = true →
      splitComma cs = [p0, p1, p2] →
      (∀ u l p, pyFloat p0 = some u → pyFloat p1 = some l → pyInt p2 = some p →
        processLine cs st = ⟨u, l, p⟩) ∧
      (pyFloat p0 = none → processLine cs st = st) ∧
      (∀ u, pyFloat p0 = some u → pyFloat p1 = none →
        processLine cs st = ⟨u, st.last_lower, st.last_pump⟩) ∧
      (∀ u l, pyFloat p0 = some u → pyFloat p1 = some l → pyInt p2 = none →
        processLine cs st = ⟨u, l, st.last_pump⟩)) := by
  refine ⟨?_, ?_, ?_, ?_, ?_⟩
  · intro cs h
    unfold processLine
    rw [h]
    simp
  · intro cs h
    cases cs with
    | nil => simp [processLine, hasSubL]
    | cons a t => simp at h
  · intro cs h
    unfold processLine
    rw [h]
    simp
  · intro cs h
    have hm : (match splitComma cs with
        | [p0, p1, p2] => processParts p0 p1 p2 st
        | _ => st) = st := by
      cases hsp : splitComma cs with
      | nil => rfl
      | cons a t =>
        cases t with
        | nil => rfl
        | cons b t2 =>
          cases t2 with
          | nil => rfl
          | cons c t3 =>
            cases t3 with
            | nil => rw [hsp] at h; simp at h
            | cons d t4 => rfl
    unfold processLine
    rw [hm]
    simp
  · intro cs p0 p1 p2 hhs hne hc hsplit
    have hl : processLine cs st = processParts p0 p1 p2 st := by
      unfold processLine
      rw [hhs, hne, hc, hsplit]
      rfl
    refine ⟨?_, ?_, ?_, ?_⟩
    · intro u l p h0 h1 h2
      rw [hl]; unfold processParts; rw [h0, h1, h2]
    · intro h0
      rw [hl]; unfold processParts; rw [h0]
    · intro u h0 h1
      rw [hl]; unfold processParts; rw [h0, h1]
    · intro u l h0 h1 h2
      rw [hl]; unfold processParts; rw [h0, h1, h2]

/-- C1 witness: the amended theorem applied to the line `"5.2,abc,20"` on
retained state `(1, 2, 3)`: only `last_upper` is replaced. -/
theorem decode_fieldwise_witness :
    processLine ("5.2,abc,20".toList) ⟨1, 2, 3⟩ = ⟨mkRat 26 5, 2, 3⟩ :=
  ((decode_fieldwise ⟨1, 2, 3⟩).2.2.2.2 ("5.2,abc,20".toList)
      ("5.2".toList) ("abc".toList) ("20".toList)
      (by decide) (by decide) (by decide) (by decide)).2.2.1
    (mkRat 26 5) (by decide) (by decide)

/-- C2: the guard `ser.in_waiting` on line 142 is evaluated outside the
`try` that begins on line 144, so a serial failure raised while checking
for pending input propagates out of the loop (only `KeyboardInterrupt` is
caught on the way out) instead of transitioning the connection to
disconnected — whereas the same failure raised inside the drain is caught
and disconnects. -/
theorem serial_pending_check_uncaught :
    serialStep true (Except.error ()) true [] ⟨0, 0, 0⟩ = Except.error () ∧
    serialStep true (Except.ok true) true [SerEvent.err] ⟨0, 0, 0⟩ =
      Except.ok (⟨0, 0, 0⟩, false) :=
  ⟨rfl, rfl⟩

/-- C3 counterexample: a push tick whose sample has lower percentage 100
(and upper 0, pump 0, setpoint 85) appends one record whose cells are
exactly `["t", "0.0", "0.0", "85.0"]` — the lower percentage appears
nowhere in the persisted record, refuting "all three percentages". -/
theorem audit_row_omits_lower_cex :
    (postTick ⟨56/5, 37/10, 0⟩ 85 "t" none).1.2.1 = 100 ∧
    format1f 100 = "100.0" ∧
    (postTick ⟨56/5, 37/10, 0⟩ 85 "t" none).2 =
      [CsvRow.header, CsvRow.data "t" "0.0" "0.0" "85.0"] ∧
    "100.0" ∉ rowFields (CsvRow.data "t" "0.0" "0.0" "85.0") := by
  have h1 : sensor_to_percent (56/5 : ℚ) = 0 := by
    rw [sensor_in_range _ (by rw [stf_eq]; norm_num) ste_eq.ge, ste_eq, stf_eq]
    norm_num
  have h2 : sensor_to_percent (37/10 : ℚ) = 100 := by
    rw [sensor_in_range _ stf_eq.le (by rw [ste_eq]; norm_num), ste_eq, stf_eq]
    norm_num
  have h3 : pumpToPercent 0 = 0 := by norm_num [pumpToPercent]
  refine ⟨?_, by decide, ?_, by decide⟩
  · simp [postTick, h2]
  · simp only [postTick, h1, h3, log_pid_data_to_csv, mkDataRow]
    decide

/-- C3 amended: every push tick appends exactly one record to the audit
file, holding the timestamp, the upper percentage (PV column), the pump
percentage (CO column) and the setpoint in effect at push time — the lower
percentage is computed and posted but not persisted; the header row is
written only when the file did not yet exist, and the handle is opened and
closed inside the call. -/
theorem audit_row_content (st : Telemetry) (sp : ℚ) (ts : String) (rows : List CsvRow) :
    (postTick st sp ts (some rows)).2 =
      rows ++ [mkDataRow ts (sensor_to_percent st.last_upper) (pumpToPercent st.last_pump) sp] ∧
    (postTick st sp ts none).2 =
      [CsvRow.header, mkDataRow ts (sensor_to_percent st.last_upper) (pumpToPercent st.last_pump) sp] ∧
    rowFields (mkDataRow ts (sensor_to_percent st.last_upper) (pumpToPercent st.last_pump) sp) =
      [ts, format1f (sensor_to_percent st.last_upper),
        format1f (pumpToPercent st.last_pump), format1f sp] := by
  refine ⟨rfl, rfl, rfl⟩

/-- C3 witness: the amended theorem applied to one concrete push tick. -/
theorem audit_row_content_witness :
    (postTick ⟨0, 0, 0⟩ 85 "t" (some [])).2 =
      [] ++ [mkDataRow "t" (sensor_to_percent 0) (pumpToPercent 0) 85] ∧
    (postTick ⟨0, 0, 0⟩ 85 "t" none).2 =
      [CsvRow.header, mkDataRow "t" (sensor_to_percent 0) (pumpToPercent 0) 85] ∧
    rowFields (mkDataRow "t" (sensor_to_percent 0) (pumpToPercent 0) 85) =
      ["t", format1f (sensor_to_percent 0), format1f (pumpToPercent 0), format1f 85] :=
  audit_row_content ⟨0, 0, 0⟩ 85 "t" []

/-- C4: `sensor_to_percent` clamps its argument into
`[SENSOR_TO_FULL, SENSOR_TO_EMPTY]` and then maps linearly; on the interval
it is monotonically non-increasing, it sends `SENSOR_TO_EMPTY` to 0 and
`SENSOR_TO_FULL` to 100, and out-of-range values give the same result as
the nearest bound. -/
theorem sensorToPercent_spec :
    (∀ d, sensor_to_percent d =
      ((SENSOR_TO_EMPTY - max (min d SENSOR_TO_EMPTY) SENSOR_TO_FULL) /
        (SENSOR_TO_EMPTY - SENSOR_TO_FULL)) * 100) ∧
    (∀ d1 d2, SENSOR_TO_FULL ≤ d1 → d1 ≤ d2 → d2 ≤ SENSOR_TO_EMPTY →
      sensor_to_percent d2 ≤ sensor_to_percent d1) ∧
    sensor_to_percent SENSOR_TO_EMPTY = 0 ∧
    sensor_to_percent SENSOR_TO_FULL = 100 ∧
    (∀ d, d ≤ SENSOR_TO_FULL → sensor_to_percent d = sensor_to_percent SENSOR_TO_FULL) ∧
    (∀ d, SENSOR_TO_EMPTY ≤ d → sensor_to_percent d = sensor_to_percent SENSOR_TO_EMPTY) := by
  have hlt : SENSOR_TO_FULL < SENSOR_TO_EMPTY := by rw [ste_eq, stf_eq]; norm_num
  refine ⟨fun d => rfl, ?_, ?_, ?_, ?_, ?_⟩
  · intro d1 d2 h1 h12 h2
    rw [sensor_in_range d1 h1 (le_trans h12 h2),
      sensor_in_range d2 (le_trans h1 h12) h2]
    have hden : (0 : ℚ) < SENSOR_TO_EMPTY - SENSOR_TO_FULL := by linarith
    have hnum : SENSOR_TO_EMPTY - d2 ≤ SENSOR_TO_EMPTY - d1 := by linarith
    exact mul_le_mul_of_nonneg_right
      ((div_le_div_iff_of_pos_right hden).mpr hnum) (by norm_num)
  · rw [sensor_in_range _ (le_of_lt hlt) le_rfl]
    simp
  · rw [sensor_in_range _ le_rfl (le_of_lt hlt)]
    rw [div_self (ne_of_gt (by linarith))]
    norm_num
  · intro d hd
    unfold sensor_to_percent
    rw [min_eq_left (le_trans hd (le_of_lt hlt)), max_eq_right hd,
      min_eq_left (le_of_lt hlt), max_self]
  · intro d hd
    unfold sensor_to_percent
    rw [min_eq_right hd, min_self, max_eq_left (le_of_lt hlt)]

/-- C4 witness: the monotonicity part of the theorem, applied at the two interval
endpoints, with the endpoint equalities discharged by the theorem itself. -/
theorem sensorToPercent_spec_witness :
    sensor_to_percent SENSOR_TO_EMPTY ≤ sensor_to_percent SENSOR_TO_FULL :=
  sensorToPercent_spec.2.1 SENSOR_TO_FULL SENSOR_TO_EMPTY (le_refl _) stf_le_ste (le_refl _)

/-- C5: `pumpToPercent` floors every raw value `≤ 0` (including all
negative values) to 0 and otherwise applies the linear map
`(raw - 16) / (50 - 16) * 100` with no further clamping, so raw values
above the calibrated upper bound 50 map above 100%. -/
theorem pumpToPercent_spec :
    (∀ r : ℤ, r ≤ 0 → pumpToPercent r = 0) ∧
    pumpToPercent 0 = 0 ∧
    (∀ r : ℤ, 0 < r → pumpToPercent r = (((r : ℚ) - 16) / (50 - 16)) * 100) ∧
    100 < pumpToPercent 60 := by
  refine ⟨?_, ?_, ?_, ?_⟩
  · intro r hr
    unfold pumpToPercent
    rw [if_neg (by omega)]
  · norm_num [pumpToPercent]
  · intro r hr
    unfold pumpToPercent
    rw [if_pos hr]
  · norm_num [pumpToPercent]

/-- C5 witness: the theorem applied at raw value `-5` (and at `17`). -/
theorem pumpToPercent_spec_witness :
    pumpToPercent (-5) = 0 ∧ pumpToPercent 17 = (((17 : ℚ) - 16) / (50 - 16)) * 100 :=
  ⟨pumpToPercent_spec.1 (-5) (by decide), pumpToPercent_spec.2.2.1 17 (by decide)⟩

/-- C6: with the serial connection open, a pull whose response reports
setpoint 90.0 while the held setpoint is 85.0 performs exactly one device
write, of the frame `"SP:90.0\n"`, and a pull reporting the held value
performs zero writes. -/
theorem pull_writeOnChange :
    pullTick (GetOutcome.resp 200 (RespBody.fields (SPField.val 90))) 85 true true =
      (90, true, ["SP:90.0\n"]) ∧
    pullTick (GetOutcome.resp 200 (RespBody.fields (SPField.val 85))) 85 true true =
      (85, true, []) := by
  refine ⟨by decide, by decide⟩

/-- C7: `get()` returns true exactly when the fetched response is a 200
response whose body carries a numeric setpoint differing from the held
value; in that case the held setpoint is updated to the reported value, and
in every other case (absent field, equal value, network error, bad JSON,
non-numeric field, non-200 status) it returns false with the held setpoint
unchanged — no outcome raises out of the call. -/
theorem get_spec (o : GetOutcome) (sp : ℚ) :
    ((getStep o sp).1 = true ↔
      ∃ q, q ≠ sp ∧ o = GetOutcome.resp 200 (RespBody.fields (SPField.val q))) ∧
    ((getStep o sp).1 = true →
      (getStep o sp).2 ≠ sp ∧
      o = GetOutcome.resp 200 (RespBody.fields (SPField.val (getStep o sp).2))) ∧
    ((getStep o sp).1 = false → (getStep o sp).2 = sp) := by
  cases o with
  | netErr => simp [getStep]
  | resp status body =>
    by_cases hs : status = 200
    · subst hs
      cases body with
      | badJson => simp [getStep]
      | fields f =>
        cases f with
        | absent => simp [getStep]
        | nonNumeric => simp [getStep]
        | val q =>
          by_cases hq : q = sp
          · subst hq; simp [getStep]
          · simp [getStep, hq]
    · simp [getStep, hs]

/-- C7 witness: the theorem applied to a 200 response reporting 90 while the
held setpoint is 85. -/
theorem get_spec_witness :
    (getStep (GetOutcome.resp 200 (RespBody.fields (SPField.val 90))) 85).2 ≠ 85 ∧
    GetOutcome.resp 200 (RespBody.fields (SPField.val 90)) =
      GetOutcome.resp 200 (RespBody.fields (SPField.val
        (getStep (GetOutcome.resp 200 (RespBody.fields (SPField.val 90))) 85).2)) :=
  (get_spec (GetOutcome.resp 200 (RespBody.fields (SPField.val 90))) 85).2.1 (by decide)

/-- C8: the first append to a nonexistent file writes the header row and one
data row, and every later append adds exactly one data row, so after any
nonempty sequence of appends the file is the header followed by one data
row per call and the header occurs exactly once. -/
theorem audit_header_once (s : String × ℚ × ℚ × ℚ) (ss : List (String × ℚ × ℚ × ℚ)) :
    runLog none (s :: ss) =
      some (CsvRow.header :: (s :: ss).map (fun x => mkDataRow x.1 x.2.1 x.2.2.1 x.2.2.2)) ∧
    (CsvRow.header ::
      (s :: ss).map (fun x => mkDataRow x.1 x.2.1 x.2.2.1 x.2.2.2)).count CsvRow.header = 1 := by
  constructor
  · rw [show runLog none (s :: ss) =
        runLog (some (log_pid_data_to_csv s.2.1 s.2.2.1 s.2.2.2 s.1 none)) ss from rfl,
      runLog_some]
    simp [log_pid_data_to_csv]
  · rw [List.count_cons_self]
    have : ((s :: ss).map (fun x => mkDataRow x.1 x.2.1 x.2.2.1 x.2.2.2)).count
        CsvRow.header = 0 := by
      rw [List.count_eq_zero]
      simp [mkDataRow]
    omega

/-- C8 witness: the theorem applied to a single append on a nonexistent
file. -/
theorem audit_header_once_witness :
    runLog none [("t", 1, 2, 3)] = some [CsvRow.header, mkDataRow "t" 1 2 3] ∧
    ([CsvRow.header, mkDataRow "t" 1 2 3].count CsvRow.header) = 1 :=
  audit_header_once ("t", 1, 2, 3) []

/-- C9: `establish_serial_connection` keeps retrying with one fixed-delay
sleep after each failure and returns only on a successful attempt: with
failures at attempts `0 .. N-1` and success at attempt `N`, it makes
exactly `N + 1` attempts, sleeps `N` times, and returns the handle from the
`(N+1)`-th attempt (for any unrolling depth that reaches it). -/
theorem connect_retries (oracle : ℕ → ConnAttempt) (sp : ℚ) (N fuel : ℕ)
    (hfail : ∀ i < N, oracle i ≠ ConnAttempt.ok)
    (hok : oracle N = ConnAttempt.ok) (hfuel : N < fuel) :
    establish_serial_connection oracle sp fuel = some (N + 1, N, [spFrame sp]) :=
  establishLoop_go oracle sp N fuel 0 (Nat.zero_le N) (by omega)
    (fun i _ hiN => hfail i hiN) hok

/-- C9 witness: two failed attempts, success on the third: 3 attempts,
2 retry delays. -/
theorem connect_retries_witness :
    establish_serial_connection
      (fun n => if n == 2 then ConnAttempt.ok else ConnAttempt.openFail) 85 5 =
      some (3, 2, [spFrame 85]) :=
  connect_retries (fun n => if n == 2 then ConnAttempt.ok else ConnAttempt.openFail)
    85 2 5 (by decide) (by decide) (by decide)

/-- C10: whenever `establish_serial_connection` returns a connection
(initially or on any reconnection, whatever the failure pattern of earlier
attempts — including attempts whose setpoint write failed), the frames
written to the returned handle are exactly one initialization frame
`"SP:<s>\n"` with `s` the setpoint held at call time; in particular the
first frame sent over every established connection is the current
setpoint. -/
theorem connect_first_frame (oracle : ℕ → ConnAttempt) (sp : ℚ) (fuel a d : ℕ)
    (w : List String)
    (h : establish_serial_connection oracle sp fuel = some (a, d, w)) :
    w.head? = some (spFrame sp) ∧ w = [spFrame sp] := by
  have hw := establishLoop_frames oracle sp fuel 0 a d w h
  exact ⟨by rw [hw]; rfl, hw⟩

/-- C10 witness: the theorem applied to an immediately-successful
connection attempt with held setpoint 90. -/
theorem connect_first_frame_witness :
    ([spFrame 90] : List String).head? = some (spFrame 90) ∧
    [spFrame 90] = [spFrame 90] :=
  connect_first_frame (fun _ => ConnAttempt.ok) 90 1 1 0 [spFrame 90] (by decide)

end PidGateway
